import Mathlib

/-!
# InputTextDialog

A shallow embedding of `src/gui/InputTextDialog.cxx`, the modal text-entry
dialog of the Stella GUI, together with the properties its specification
states about it.

Conventions of the embedding.

* The dialog object is a record of the members the source file reads and
  writes; a member function becomes a function on that record.
* `std::vector` is a `List`.  An element access `v[i]` outside the vector is
  undefined behaviour in C++; functions that perform one return `Option`, and
  `none` stands for such an access.
* Signed `int` layout arithmetic is carried out in `Int`: signed overflow is
  undefined in C++, so every defined run agrees with the unbounded result.
* Unsigned 32-bit values are reduced modulo `2 ^ 32` where the behaviour of
  the code depends on it: the cast `uInt32(idx)` of the accessors, the
  `uInt32` origin computed by the anchored `show`, and the `uInt32` locals
  `lwidth`, `xpos` and `ypos` of `initialize`.
* A `std::string` is the Lean `String` with the same (UTF-8) bytes.  Its
  `length()` counts `char` elements, that is bytes, not code points
  (`strLength`).
* A `uInt32` local that is handed to an `int` parameter is converted back
  with `uInt32ToInt` (two's complement).
* Calls that leave this file (the listener's `sendCommand`, the base class
  `Dialog::handleCommand`) are recorded as a list of outbound calls.
* Declarations of headers that are not part of the sources (fonts, widgets,
  `Common::Rect`, command codes) are parameters or are modelled from the
  specification; each such definition says so.
-/

namespace Stella

/-! ## Machine integers -/

/-- Conversion `uInt32(n)` of an `int`: reduction modulo `2 ^ 32`. -/
def toUInt32 (n : Int) : Nat := (n % 2 ^ 32).toNat

/-- Conversion of an `int` to `size_t` (64 bit), as happens when an `int` is
the argument of `std::vector::operator[]`. -/
def toSizeT (n : Int) : Nat := (n % 2 ^ 64).toNat

/-- Conversion of a `uInt32` value to `int`, as happens when a `uInt32`
expression is the argument of an `int` parameter: values from `2 ^ 31` on
become negative (two's complement). -/
def uInt32ToInt (n : Nat) : Int :=
  if n % 2 ^ 32 < 2 ^ 31 then ((n % 2 ^ 32 : Nat) : Int) else ((n % 2 ^ 32 : Nat) : Int) - 2 ^ 32

/-- The member `std::string::length()`: the number of `char` elements of the
string, that is the number of bytes of its encoding. -/
def strLength (s : String) : Nat := s.utf8ByteSize

/-- Range of the C++ type `int` (32 bit, two's complement). -/
def IsInt (n : Int) : Prop := -(2 ^ 31) ≤ n ∧ n < 2 ^ 31

instance (n : Int) : Decidable (IsInt n) := by
  unfold IsInt; exact inferInstance

/-- The expression `int(n * 1.25)` for an `int` n: the product is formed in
`double`, where it is exact (`1.25 = 5/4` and `5 * n` has at most 34 bits), and
the conversion back to `int` truncates toward zero. -/
def mulOneAndQuarter (n : Int) : Int := Int.tdiv (n * 5) 4

/-- Shared empty string constant `EmptyString` (declared in `bspf.hxx`). -/
def EmptyString : String := ""

/-! ## Collaborators declared outside the source file -/

/-- Font metrics provider `GUI::Font`: the four queries the dialog makes.
The class is declared in `Font.hxx`, so its results are parameters. -/
structure Font where
  getLineHeight : Int
  getMaxCharWidth : Int
  getFontHeight : Int
  getStringWidth : String → Int

/-- Modelled from the spec: `Common::Rect` (declared in `Rect.hxx`, which is
not among the sources), the reference rectangle of the anchored `show`, given
by its top-left corner and its bottom-right corner. -/
structure Rect where
  left : Nat
  top : Nat
  right : Nat
  bottom : Nat
deriving DecidableEq, Repr

/-- Accessor `Rect::x()`: horizontal origin of the rectangle. -/
def Rect.x (r : Rect) : Nat := r.left

/-- Accessor `Rect::y()`: vertical origin of the rectangle. -/
def Rect.y (r : Rect) : Nat := r.top

/-- Modelled from the spec: `Rect::contains(x, y)` (declared in `Rect.hxx`,
which is not among the sources): the point lies within the bounds of the
rectangle.  The dialog operations take the containment test as a parameter;
this instance is used for concrete evaluations. -/
def Rect.contains (r : Rect) (px py : Nat) : Bool :=
  decide (r.left ≤ px) && decide (px < r.right) && decide (r.top ≤ py) && decide (py < r.bottom)

/-- Text colours used by the dialog. -/
inductive ColorId where
  | kTextColor
  | kTextColorEm
deriving DecidableEq, Repr

/-- Modelled from the spec: `StaticTextWidget` (declared in `Widget.hxx`), a
static label with its position, size and text. -/
structure StaticTextWidget where
  x : Int
  y : Int
  w : Int
  h : Int
  label : String
  textColor : ColorId
deriving DecidableEq, Repr

/-- Modelled from the spec: `StaticTextWidget::setLabel` replaces the text
that the widget shows. -/
def StaticTextWidget.setLabel (m : StaticTextWidget) (s : String) : StaticTextWidget :=
  { m with label := s }

/-- Modelled from the spec: `StaticTextWidget::setTextColor`. -/
def StaticTextWidget.setTextColor (m : StaticTextWidget) (c : ColorId) : StaticTextWidget :=
  { m with textColor := c }

/-- Character filter of a text field (`EditableWidget::TextFilter`). -/
abbrev TextFilter := Char → Bool

/-- Modelled from the spec: `EditTextWidget` (declared in
`EditTextWidget.hxx`), a text-entry field that owns a mutable string and an
optional filter on the characters that may be typed. -/
structure EditTextWidget where
  x : Int
  y : Int
  w : Int
  h : Int
  text : String
  filter : Option TextFilter

/-- Modelled from the spec: `EditableWidget::getText` returns the string the
field owns. -/
def EditTextWidget.getText (e : EditTextWidget) : String := e.text

/-- Modelled from the spec: `EditableWidget::setText` overwrites the string
the field owns. -/
def EditTextWidget.setText (e : EditTextWidget) (s : String) : EditTextWidget :=
  { e with text := s }

/-- Modelled from the spec: `EditableWidget::setTextFilter` installs or
replaces the filter of the field. -/
def EditTextWidget.setTextFilter (e : EditTextWidget) (f : TextFilter) : EditTextWidget :=
  { e with filter := some f }

/-- Entry of the focus list of the dialog: the text field of a row, or one of
the buttons of the OK/Cancel group. -/
inductive WidgetRef where
  | input (row : Nat)
  | button (k : Nat)
deriving DecidableEq, Repr

/-- Identity of a command sender (`CommandSender*`). -/
abbrev Sender := Nat

/-- Command codes tested by `handleCommand`.  They are enumerators of
`GuiObject` and `EditableWidget`, declared in headers that are not among the
sources, hence parameters.  The four case labels of the `switch` are pairwise
distinct, as C++ requires of the labels of one `switch`. -/
structure CommandCodes where
  kOKCmd : Int
  kCloseCmd : Int
  kAcceptCmd : Int
  kChangedCmd : Int
  kCancelCmd : Int
  caseLabelsDistinct : [kOKCmd, kAcceptCmd, kChangedCmd, kCancelCmd].Nodup

/-- Call that leaves the dialog while it handles a command. -/
inductive Call where
  | sendCommand (cmd data id : Int)
  | dialogHandleCommand (sender : Sender) (cmd data id : Int)
deriving DecidableEq, Repr

/-! ## The dialog object -/

/-- Members of an `InputTextDialog` (those of its bases `GuiObject` and
`Dialog` that the source file uses come first). -/
structure InputTextDialog where
  _w : Int
  _h : Int
  _th : Int
  visible : Bool
  labelWidgets : List StaticTextWidget
  focusList : List WidgetRef
  focusedWidget : Option WidgetRef
  myInput : List EditTextWidget
  myMessage : StaticTextWidget
  myEnableCenter : Bool
  myErrorFlag : Bool
  myXOrig : Nat
  myYOrig : Nat
  myCmd : Int

/-! ## Layout (`initialize`, lines 50-108) -/

/-- Local `VBORDER = fontHeight / 2` (integer division truncates). -/
def VBORDER (lfont : Font) : Int := Int.tdiv lfont.getFontHeight 2

/-- Local `HBORDER = fontWidth * 1.25`. -/
def HBORDER (lfont : Font) : Int := mulOneAndQuarter lfont.getMaxCharWidth

/-- Local `VGAP = fontHeight / 4` (integer division truncates). -/
def VGAP (lfont : Font) : Int := Int.tdiv lfont.getFontHeight 4

/-- Local `buttonHeight = lfont.getLineHeight() * 1.25`. -/
def buttonHeight (lfont : Font) : Int := mulOneAndQuarter lfont.getLineHeight

/-- Value assigned to `_w` (line 65). -/
def dialogWidth (lfont : Font) : Int :=
  HBORDER lfont * 2 + lfont.getMaxCharWidth * 39

/-- Value assigned to `_h` (line 66); `int(labels.size())` is the number of
labels. -/
def dialogHeight (lfont : Font) (th : Int) (labels : List String) : Int :=
  buttonHeight lfont + lfont.getLineHeight + VGAP lfont
    + (labels.length : Int) * (lfont.getLineHeight + VGAP lfont) + th + VBORDER lfont * 2

/-- The loop "determine longest label" (lines 69-76), started at index `i`
on the labels not yet visited, with the current values of `lwidth` and
`maxIdx`; returns their final values.  The test compares the byte length
`labels[i].length()` with the `uInt32` local `lwidth`, and the assignment
`lwidth = int(labels[i].length())` stores the length in that `uInt32`. -/
def longestLabelLoop : List String → Nat → Nat → Nat → Nat × Nat
  | [], _, lwidth, maxIdx => (lwidth, maxIdx)
  | l :: rest, i, lwidth, maxIdx =>
    if strLength l > lwidth then longestLabelLoop rest (i + 1) (strLength l % 2 ^ 32) i
    else longestLabelLoop rest (i + 1) lwidth maxIdx

/-- Final value of `maxIdx` (initially 0, as is `lwidth`). -/
def maxIdx (labels : List String) : Nat := (longestLabelLoop labels 0 0 0).2

/-- Label column width, `lwidth = lfont.getStringWidth(labels[maxIdx])`
(line 77), the `int` result stored in the `uInt32` local `lwidth`; `none` when
`labels[maxIdx]` is outside the label vector. -/
def labelColumnWidth (lfont : Font) (labels : List String) : Option Nat :=
  (labels[maxIdx labels]?).map fun label => toUInt32 (lfont.getStringWidth label)

/-- The loop "create editboxes for all labels" (lines 81-95) on the labels not
yet visited and the current `ypos`: the static labels and the text fields it
creates, in creation order, and the final `ypos`.  The locals `xpos`, `ypos`
and `lwidth` are `uInt32`: an expression with one of them is evaluated in
`uInt32`, so its value is the integer expression reduced modulo `2 ^ 32`
(`toUInt32`), and it reaches the `int` parameters x, y and w of the widget
constructors through `uInt32ToInt`. -/
def createRows (lfont : Font) (w : Int) (lwidth : Nat) :
    List String → Nat → List StaticTextWidget × List EditTextWidget × Nat
  | [], ypos => ([], [], ypos)
  | label :: rest, ypos =>
    let xpos := toUInt32 (HBORDER lfont)
    let t : StaticTextWidget :=
      { x := uInt32ToInt xpos, y := uInt32ToInt (toUInt32 ((ypos : Int) + 2)),
        w := uInt32ToInt lwidth, h := lfont.getFontHeight,
        label := label, textColor := ColorId.kTextColor }
    let xpos := toUInt32 ((xpos : Int) + ((lwidth : Int) + lfont.getMaxCharWidth))
    let e : EditTextWidget :=
      { x := uInt32ToInt xpos, y := uInt32ToInt ypos,
        w := uInt32ToInt (toUInt32 (w - (xpos : Int) - HBORDER lfont)),
        h := lfont.getLineHeight, text := "", filter := none }
    let r := createRows lfont w lwidth rest
      (toUInt32 ((ypos : Int) + (lfont.getLineHeight + VGAP lfont)))
    (t :: r.1, e :: r.2.1, r.2.2)

/-- The part of `initialize` after the label column width `lwidth` is known
(lines 79-107), together with the assignments to `_w` and `_h` (lines 65-66),
on a dialog whose base has title-bar height `th`.  The members that
`initialize` does not assign keep the values of a freshly constructed object
(no field yet, closed, no error, no response command, origin 0).  The entry
font `nfont` is only handed to the text fields.  The focus list receives the
text fields in row order (`addToFocusList`), then the buttons of the
OK/Cancel group (`addBGroupToFocusList`). -/
def layoutDialog (lfont _nfont : Font) (labels : List String) (th : Int) (lwidth : Nat) :
    InputTextDialog :=
  let w := dialogWidth lfont
  let h := dialogHeight lfont th labels
  let rows := createRows lfont w lwidth labels (toUInt32 (VBORDER lfont + th))
  let xpos := toUInt32 (HBORDER lfont)
  let ypos := toUInt32 ((rows.2.2 : Int) + VGAP lfont)
  let msg : StaticTextWidget :=
    { x := uInt32ToInt xpos, y := uInt32ToInt ypos,
      w := uInt32ToInt (toUInt32 (w - 2 * (xpos : Int))), h := lfont.getFontHeight,
      label := "", textColor := ColorId.kTextColor }
  { _w := w, _h := h, _th := th,
    visible := false,
    labelWidgets := rows.1,
    focusList := (List.range rows.2.1.length).map WidgetRef.input
      ++ [WidgetRef.button 0, WidgetRef.button 1],
    focusedWidget := none,
    myInput := rows.2.1,
    myMessage := msg.setTextColor ColorId.kTextColorEm,
    myEnableCenter := false,
    myErrorFlag := false,
    myXOrig := 0,
    myYOrig := 0,
    myCmd := 0 }

/-- Body of `InputTextDialog::initialize`: the label column width is looked
up (line 77) and the dialog is laid out with it.  The result is `none` when
`labels[maxIdx]` is outside the label vector. -/
def InputTextDialog.initialize (lfont nfont : Font) (labels : List String) (th : Int) :
    Option InputTextDialog :=
  (labelColumnWidth lfont labels).map (layoutDialog lfont nfont labels th)

/-! ## Showing the dialog (lines 111-130) -/

/-- Modelled from the spec: `Dialog::open` (base class, not among the
sources) puts the dialog into its open state. -/
def InputTextDialog.open (d : InputTextDialog) : InputTextDialog :=
  { d with visible := true }

/-- Centered `InputTextDialog::show()`. -/
def InputTextDialog.show (d : InputTextDialog) : InputTextDialog :=
  InputTextDialog.open { d with myEnableCenter := true }

/-- Horizontal scaled origin `bossRect.x() + x * scale`, in `uInt32`. -/
def scaledXOrig (scale x : Nat) (bossRect : Rect) : Nat := (bossRect.x + x * scale) % 2 ^ 32

/-- Vertical scaled origin `bossRect.y() + y * scale`, in `uInt32`. -/
def scaledYOrig (scale y : Nat) (bossRect : Rect) : Nat := (bossRect.y + y * scale) % 2 ^ 32

/-- Anchored `InputTextDialog::show(x, y, bossRect)`.  `scale` is the value of
`hidpiScaleFactor()` and `contains` the point test of `Common::Rect`. -/
def InputTextDialog.showAt (scale : Nat) (contains : Rect → Nat → Nat → Bool)
    (x y : Nat) (bossRect : Rect) (d : InputTextDialog) : InputTextDialog :=
  let d1 := { d with myXOrig := scaledXOrig scale x bossRect,
                     myYOrig := scaledYOrig scale y bossRect }
  if !contains bossRect d1.myXOrig d1.myYOrig then d1
  else InputTextDialog.open { d1 with myEnableCenter := false }

/-! ## Accessors (lines 151-185) -/

/-- `InputTextDialog::setMessage`. -/
def InputTextDialog.setMessage (title : String) (d : InputTextDialog) : InputTextDialog :=
  { d with myMessage := d.myMessage.setLabel title, myErrorFlag := true }

/-- `InputTextDialog::getResult`; `none` when `myInput[idx]` is outside the
vector. -/
def InputTextDialog.getResult (idx : Int) (d : InputTextDialog) : Option String :=
  if toUInt32 idx < d.myInput.length then
    (d.myInput[toSizeT idx]?).map EditTextWidget.getText
  else some EmptyString

/-- `InputTextDialog::setText`; `none` when `myInput[idx]` is outside the
vector. -/
def InputTextDialog.setText (str : String) (idx : Int) (d : InputTextDialog) :
    Option InputTextDialog :=
  if toUInt32 idx < d.myInput.length then
    (d.myInput[toSizeT idx]?).map fun e =>
      { d with myInput := d.myInput.set (toSizeT idx) (e.setText str) }
  else some d

/-- `InputTextDialog::setTextFilter`; `none` when `myInput[idx]` is outside
the vector. -/
def InputTextDialog.setTextFilter (f : TextFilter) (idx : Int) (d : InputTextDialog) :
    Option InputTextDialog :=
  if toUInt32 idx < d.myInput.length then
    (d.myInput[toSizeT idx]?).map fun e =>
      { d with myInput := d.myInput.set (toSizeT idx) (e.setTextFilter f) }
  else some d

/-- `InputTextDialog::setFocus`: `Dialog::setFocus(getFocusList()[idx])` makes
the entry of the focus list the focused widget; `none` when the entry is
outside the focus list. -/
def InputTextDialog.setFocus (idx : Int) (d : InputTextDialog) : Option InputTextDialog :=
  if toUInt32 idx < d.myInput.length then
    (d.focusList[toSizeT idx]?).map fun r => { d with focusedWidget := some r }
  else some d

/-! ## Event dispatch (lines 188-223) -/

/-- `InputTextDialog::handleCommand`: the dialog after the command and the
calls made to the listener and to the base class handler, in order.  What
the base class handler does with a command handed to it is outside this
file. -/
def InputTextDialog.handleCommand (c : CommandCodes) (sender : Sender) (cmd data id : Int)
    (d : InputTextDialog) : InputTextDialog × List Call :=
  if cmd = c.kOKCmd ∨ cmd = c.kAcceptCmd then
    if d.myCmd ≠ 0 then (d, [Call.sendCommand d.myCmd 0 0]) else (d, [])
  else if cmd = c.kChangedCmd then
    if d.myErrorFlag then
      ({ d with myMessage := d.myMessage.setLabel "", myErrorFlag := false }, [])
    else (d, [])
  else if cmd = c.kCancelCmd then
    (d, [Call.dialogHandleCommand sender c.kCloseCmd data id])
  else
    (d, [Call.dialogHandleCommand sender cmd data id])

/-! ## Concrete data for evaluation -/

/-- A font with an 8 x 12 character cell; strings are 8 pixels per character. -/
def sampleFont : Font :=
  { getLineHeight := 12, getMaxCharWidth := 8, getFontHeight := 12,
    getStringWidth := fun s => 8 * (s.length : Int) }

/-- Command codes used for concrete evaluations. -/
def sampleCodes : CommandCodes :=
  { kOKCmd := 1, kCloseCmd := 2, kAcceptCmd := 3, kChangedCmd := 4, kCancelCmd := 5,
    caseLabelsDistinct := by decide }

/-- The dialog built by `initialize` for the labels "Name" and "Email" with
`sampleFont` and a title bar of height 14. -/
def nameEmailDialog : InputTextDialog :=
  { _w := 332, _h := 86, _th := 14,
    visible := false,
    labelWidgets :=
      [ { x := 10, y := 22, w := 40, h := 12, label := "Name", textColor := ColorId.kTextColor },
        { x := 10, y := 37, w := 40, h := 12, label := "Email", textColor := ColorId.kTextColor } ],
    focusList := [WidgetRef.input 0, WidgetRef.input 1, WidgetRef.button 0, WidgetRef.button 1],
    focusedWidget := none,
    myInput :=
      [ { x := 58, y := 20, w := 264, h := 12, text := "", filter := none },
        { x := 58, y := 35, w := 264, h := 12, text := "", filter := none } ],
    myMessage :=
      { x := 10, y := 53, w := 312, h := 12, label := "", textColor := ColorId.kTextColorEm },
    myEnableCenter := false,
    myErrorFlag := false,
    myXOrig := 0,
    myYOrig := 0,
    myCmd := 0 }

/-- A reference rectangle with corners (100, 100) and (300, 200). -/
def sampleRect : Rect := { left := 100, top := 100, right := 300, bottom := 200 }

/-! ## Machine integer facts -/

theorem toUInt32_of_nonneg {n : Int} (hn : IsInt n) (h0 : 0 ≤ n) : toUInt32 n = n.toNat := by
  unfold IsInt at hn
  unfold toUInt32
  have h : n % 2 ^ 32 = n := Int.emod_eq_of_lt h0 (by omega)
  rw [h]

theorem toUInt32_of_neg {n : Int} (hn : IsInt n) (h0 : n < 0) : 2 ^ 31 ≤ toUInt32 n := by
  unfold IsInt at hn
  unfold toUInt32
  omega

theorem toSizeT_of_nonneg {n : Int} (hn : IsInt n) (h0 : 0 ≤ n) : toSizeT n = n.toNat := by
  unfold IsInt at hn
  unfold toSizeT
  have h : n % 2 ^ 64 = n := Int.emod_eq_of_lt h0 (by omega)
  rw [h]

theorem toSizeT_of_neg {n : Int} (hn : IsInt n) (h0 : n < 0) : 2 ^ 63 ≤ toSizeT n := by
  unfold IsInt at hn
  unfold toSizeT
  omega

theorem toUInt32_natCast_emod (z : Int) : ((toUInt32 z : Nat) : Int) = z % 2 ^ 32 := by
  unfold toUInt32
  exact Int.toNat_of_nonneg (Int.emod_nonneg _ (by norm_num))

/-- A `uInt32` sum does not depend on when its left operand was reduced. -/
theorem toUInt32_add_left (a b : Int) : toUInt32 ((toUInt32 a : Int) + b) = toUInt32 (a + b) := by
  rw [toUInt32_natCast_emod]
  unfold toUInt32
  rw [Int.emod_add_emod]

/-- An `int` stored in a `uInt32` and read back as `int` is unchanged. -/
theorem uInt32ToInt_toUInt32 {z : Int} (hz : IsInt z) : uInt32ToInt (toUInt32 z) = z := by
  unfold IsInt at hz
  unfold uInt32ToInt toUInt32
  split <;> omega

/-- Reading a `uInt32` as `int` only depends on its value modulo `2 ^ 32`. -/
theorem uInt32ToInt_toUInt32_natCast (n : Nat) : uInt32ToInt (toUInt32 (n : Int)) = uInt32ToInt n := by
  unfold uInt32ToInt toUInt32
  split <;> split <;> omega

/-- An `int` index that is negative or not below the field count fails the
test `uInt32(idx) < myInput.size()`, provided the count is at most `2 ^ 31`. -/
theorem not_inRange_of_out {N : Nat} {idx : Int} (hN : N ≤ 2 ^ 31) (hidx : IsInt idx)
    (hout : idx < 0 ∨ (N : Int) ≤ idx) : ¬ toUInt32 idx < N := by
  rcases hout with h | h
  · have := toUInt32_of_neg hidx h
    omega
  · have h0 : 0 ≤ idx := le_trans (Int.ofNat_nonneg N) h
    rw [toUInt32_of_nonneg hidx h0]
    omega

/-! ## The longest-label loop -/

theorem longestLabelLoop_cons_gt (l : String) (rest : List String) (i lwidth mi : Nat)
    (hgt : strLength l > lwidth) (hl : strLength l < 2 ^ 32) :
    longestLabelLoop (l :: rest) i lwidth mi = longestLabelLoop rest (i + 1) (strLength l) i := by
  rw [longestLabelLoop, if_pos hgt, Nat.mod_eq_of_lt hl]

theorem longestLabelLoop_cons_le (l : String) (rest : List String) (i lwidth mi : Nat)
    (hle : ¬ strLength l > lwidth) :
    longestLabelLoop (l :: rest) i lwidth mi = longestLabelLoop rest (i + 1) lwidth mi := by
  rw [longestLabelLoop, if_neg hle]

/-- What the longest-label loop computes on labels shorter than `2 ^ 32`
characters: either no label is longer than the running maximum and the state
is returned as it was, or the state is the length and the index of the first
label of maximal length, which exceeds the running maximum. -/
theorem longestLabelLoop_spec (rest : List String) (hlen : ∀ l ∈ rest, strLength l < 2 ^ 32) :
    ∀ i lwidth mi,
      (longestLabelLoop rest i lwidth mi = (lwidth, mi) ∧ ∀ l ∈ rest, strLength l ≤ lwidth) ∨
      (∃ k s, rest[k]? = some s ∧ longestLabelLoop rest i lwidth mi = (strLength s, i + k) ∧
        lwidth < strLength s ∧ (∀ l ∈ rest, strLength l ≤ strLength s) ∧
        ∀ j t, j < k → rest[j]? = some t → strLength t < strLength s) := by
  induction rest with
  | nil =>
    intro i lwidth mi
    left
    simp [longestLabelLoop]
  | cons l rest ih =>
    intro i lwidth mi
    have hl : strLength l < 2 ^ 32 := hlen l (List.mem_cons_self _ _)
    have hrest : ∀ t ∈ rest, strLength t < 2 ^ 32 := fun t ht => hlen t (List.mem_cons_of_mem _ ht)
    by_cases hgt : strLength l > lwidth
    · right
      rw [longestLabelLoop_cons_gt l rest i lwidth mi hgt hl]
      rcases ih hrest (i + 1) (strLength l) i with ⟨heq, hle⟩ | ⟨k, s, hk, heq, hlt, hle, hfirst⟩
      · refine ⟨0, l, by simp, ?_, hgt, ?_, ?_⟩
        · rw [heq, Nat.add_zero]
        · intro t ht
          rcases List.mem_cons.mp ht with rfl | ht
          · exact le_refl _
          · exact hle t ht
        · intro j t hj
          omega
      · refine ⟨k + 1, s, by simpa using hk, ?_, by omega, ?_, ?_⟩
        · rw [heq, Nat.add_assoc, Nat.add_comm 1 k]
        · intro t ht
          rcases List.mem_cons.mp ht with rfl | ht
          · omega
          · exact hle t ht
        · intro j t hj hjt
          cases j with
          | zero =>
            simp at hjt
            subst hjt
            exact hlt
          | succ j =>
            simp at hjt
            exact hfirst j t (by omega) hjt
    · rw [longestLabelLoop_cons_le l rest i lwidth mi hgt]
      rcases ih hrest (i + 1) lwidth mi with ⟨heq, hle⟩ | ⟨k, s, hk, heq, hlt, hle, hfirst⟩
      · left
        refine ⟨heq, ?_⟩
        intro t ht
        rcases List.mem_cons.mp ht with rfl | ht
        · omega
        · exact hle t ht
      · right
        refine ⟨k + 1, s, by simpa using hk, ?_, hlt, ?_, ?_⟩
        · rw [heq, Nat.add_assoc, Nat.add_comm 1 k]
        · intro t ht
          rcases List.mem_cons.mp ht with rfl | ht
          · omega
          · exact hle t ht
        · intro j t hj hjt
          cases j with
          | zero =>
            simp at hjt
            subst hjt
            omega
          | succ j =>
            simp at hjt
            exact hfirst j t (by omega) hjt

/-- The index left in `maxIdx` is that of a visited label, or the initial one. -/
theorem longestLabelLoop_index (rest : List String) :
    ∀ i lwidth mi, (longestLabelLoop rest i lwidth mi).2 = mi ∨
      (i ≤ (longestLabelLoop rest i lwidth mi).2 ∧
        (longestLabelLoop rest i lwidth mi).2 < i + rest.length) := by
  induction rest with
  | nil =>
    intro i lwidth mi
    left
    rfl
  | cons l rest ih =>
    intro i lwidth mi
    unfold longestLabelLoop
    split
    · rcases ih (i + 1) (strLength l % 2 ^ 32) i with h | h
      · right
        rw [h]
        simp
      · right
        simp only [List.length_cons]
        omega
    · rcases ih (i + 1) lwidth mi with h | h
      · left
        exact h
      · right
        simp only [List.length_cons]
        omega

/-- On a non-empty label list `labels[maxIdx]` is inside the list. -/
theorem maxIdx_lt (labels : List String) (hne : labels ≠ []) : maxIdx labels < labels.length := by
  have hpos : 0 < labels.length := List.length_pos.mpr hne
  unfold maxIdx
  rcases longestLabelLoop_index labels 0 0 0 with h | h
  · rw [h]
    exact hpos
  · omega

/-! ## The row loop -/

theorem createRows_labels_length (lfont : Font) (w : Int) (lwidth : Nat) (labels : List String) :
    ∀ ypos, (createRows lfont w lwidth labels ypos).1.length = labels.length := by
  induction labels with
  | nil => intro ypos; rfl
  | cons l rest ih =>
    intro ypos
    simp only [createRows, List.length_cons, ih]

theorem createRows_inputs_length (lfont : Font) (w : Int) (lwidth : Nat) (labels : List String) :
    ∀ ypos, (createRows lfont w lwidth labels ypos).2.1.length = labels.length := by
  induction labels with
  | nil => intro ypos; rfl
  | cons l rest ih =>
    intro ypos
    simp only [createRows, List.length_cons, ih]

/-- Row i of the row loop: the static label carries label i and has the label
column width, and the text field created with it is empty; their vertical
positions are those of `ypos` advanced by `i` row heights in `uInt32`. -/
theorem createRows_row (lfont : Font) (w : Int) (lwidth : Nat) (labels : List String) :
    ∀ (ypos : Nat) (i : Nat) (label : String), labels[i]? = some label →
      (createRows lfont w lwidth labels ypos).1[i]? = some
        { x := uInt32ToInt (toUInt32 (HBORDER lfont)),
          y := uInt32ToInt (toUInt32
            ((ypos : Int) + (i : Int) * (lfont.getLineHeight + VGAP lfont) + 2)),
          w := uInt32ToInt lwidth, h := lfont.getFontHeight, label := label,
          textColor := ColorId.kTextColor } ∧
      (createRows lfont w lwidth labels ypos).2.1[i]? = some
        { x := uInt32ToInt (toUInt32
            ((toUInt32 (HBORDER lfont) : Int) + ((lwidth : Int) + lfont.getMaxCharWidth))),
          y := uInt32ToInt (toUInt32
            ((ypos : Int) + (i : Int) * (lfont.getLineHeight + VGAP lfont))),
          w := uInt32ToInt (toUInt32 (w - (toUInt32
            ((toUInt32 (HBORDER lfont) : Int) + ((lwidth : Int) + lfont.getMaxCharWidth)) : Int)
            - HBORDER lfont)),
          h := lfont.getLineHeight, text := "", filter := none } := by
  induction labels with
  | nil =>
    intro ypos i label h
    simp at h
  | cons l rest ih =>
    intro ypos i label h
    cases i with
    | zero =>
      simp at h
      subst h
      simp [createRows, uInt32ToInt_toUInt32_natCast]
    | succ i =>
      simp at h
      have hrow := ih (toUInt32 ((ypos : Int) + (lfont.getLineHeight + VGAP lfont))) i label h
      have hy : toUInt32 ((toUInt32 ((ypos : Int) + (lfont.getLineHeight + VGAP lfont)) : Int)
            + (i : Int) * (lfont.getLineHeight + VGAP lfont))
          = toUInt32 ((ypos : Int)
            + ((i + 1 : Nat) : Int) * (lfont.getLineHeight + VGAP lfont)) := by
        rw [toUInt32_add_left]
        congr 1
        push_cast
        ring
      have hy2 : toUInt32 ((toUInt32 ((ypos : Int) + (lfont.getLineHeight + VGAP lfont)) : Int)
            + (i : Int) * (lfont.getLineHeight + VGAP lfont) + 2)
          = toUInt32 ((ypos : Int)
            + ((i + 1 : Nat) : Int) * (lfont.getLineHeight + VGAP lfont) + 2) := by
        rw [Int.add_assoc, toUInt32_add_left]
        congr 1
        push_cast
        ring
      rw [hy, hy2] at hrow
      simpa [createRows] using hrow

/-! ## Evaluation of `initialize` on the sample labels -/

theorem initialize_nameEmail :
    InputTextDialog.initialize sampleFont sampleFont ["Name", "Email"] 14 = some nameEmailDialog := by
  rfl

/-! ## Accessors -/

/-- C2: for a dialog with N fields (N at most 2^31, so that the field count is
addressable by an `int`) and every `int` index that is negative or at least N,
`getResult` returns the empty string and `setText`, `setTextFilter` and
`setFocus` return the dialog unchanged (texts, filters and focus included). -/
theorem out_of_range_accessors (d : InputTextDialog) (idx : Int) (v : String) (f : TextFilter)
    (hN : d.myInput.length ≤ 2 ^ 31) (hidx : IsInt idx)
    (hout : idx < 0 ∨ (d.myInput.length : Int) ≤ idx) :
    InputTextDialog.getResult idx d = some "" ∧
    InputTextDialog.setText v idx d = some d ∧
    InputTextDialog.setTextFilter f idx d = some d ∧
    InputTextDialog.setFocus idx d = some d := by
  have h := not_inRange_of_out hN hidx hout
  simp [InputTextDialog.getResult, InputTextDialog.setText, InputTextDialog.setTextFilter,
    InputTextDialog.setFocus, h, EmptyString]

theorem out_of_range_accessors_witness :
    (nameEmailDialog.myInput.length ≤ 2 ^ 31 ∧ IsInt (-1) ∧
      ((-1 : Int) < 0 ∨ (nameEmailDialog.myInput.length : Int) ≤ -1)) ∧
    (InputTextDialog.getResult (-1) nameEmailDialog = some "" ∧
      InputTextDialog.setText "x" (-1) nameEmailDialog = some nameEmailDialog ∧
      InputTextDialog.setTextFilter (fun _ => true) (-1) nameEmailDialog = some nameEmailDialog ∧
      InputTextDialog.setFocus (-1) nameEmailDialog = some nameEmailDialog) :=
  ⟨⟨by decide, by decide, by decide⟩,
   out_of_range_accessors nameEmailDialog (-1) "x" (fun _ => true)
     (by decide) (by decide) (by decide)⟩

/-- C3: for every in-range `int` index i (0 <= i < N) and every string v,
`setText(v, i)` succeeds, afterwards `getResult(i)` returns v, and
`getResult(j)` is unchanged for every other `int` index j. -/
theorem setText_then_getResult (d : InputTextDialog) (i : Int) (v : String)
    (hi : IsInt i) (h0 : 0 ≤ i) (hN : i < (d.myInput.length : Int)) :
    ∃ d1, InputTextDialog.setText v i d = some d1 ∧
      InputTextDialog.getResult i d1 = some v ∧
      ∀ j : Int, IsInt j → j ≠ i →
        InputTextDialog.getResult j d1 = InputTextDialog.getResult j d := by
  have hu : toUInt32 i = i.toNat := toUInt32_of_nonneg hi h0
  have hs : toSizeT i = i.toNat := toSizeT_of_nonneg hi h0
  have hlt : i.toNat < d.myInput.length := by omega
  have hget : d.myInput[i.toNat]? = some (d.myInput[i.toNat]) := List.getElem?_eq_getElem hlt
  refine ⟨{ d with myInput := d.myInput.set i.toNat ((d.myInput[i.toNat]).setText v) }, ?_, ?_, ?_⟩
  · simp [InputTextDialog.setText, hu, hs, hlt]
  · simp [InputTextDialog.getResult, hu, hs, hlt, EditTextWidget.getText, EditTextWidget.setText]
  · intro j hj hne
    have hjs : toSizeT j ≠ i.toNat := by
      by_cases hj0 : 0 ≤ j
      · rw [toSizeT_of_nonneg hj hj0]
        omega
      · have := toSizeT_of_neg hj (by omega)
        unfold IsInt at hi
        omega
    simp only [InputTextDialog.getResult, List.length_set]
    split
    · rw [List.getElem?_set_ne (Ne.symm hjs)]
    · rfl

theorem setText_then_getResult_witness :
    (IsInt 0 ∧ (0 : Int) ≤ 0 ∧ (0 : Int) < (nameEmailDialog.myInput.length : Int)) ∧
    (∃ d1, InputTextDialog.setText "Alice" 0 nameEmailDialog = some d1 ∧
      InputTextDialog.getResult 0 d1 = some "Alice" ∧
      ∀ j : Int, IsInt j → j ≠ 0 →
        InputTextDialog.getResult j d1 = InputTextDialog.getResult j nameEmailDialog) ∧
    ( InputTextDialog.initialize sampleFont sampleFont ["Name", "Email"] 14 = some nameEmailDialog ∧
      ((InputTextDialog.setText "Alice" 0 nameEmailDialog).bind (InputTextDialog.getResult 0)
        = some "Alice") ∧
      ((InputTextDialog.setText "Alice" 0 nameEmailDialog).bind (InputTextDialog.getResult 5)
        = some "")) :=
  ⟨⟨by decide, by decide, by decide⟩,
   setText_then_getResult nameEmailDialog 0 "Alice" (by decide) (by decide) (by decide),
   ⟨initialize_nameEmail, rfl, rfl⟩⟩

/-- For an in-range `int` index i, `setTextFilter(f, i)` installs f as the
filter of field i and changes no text: `getResult(j)` is the same for every
index j. -/
theorem setTextFilter_in_range (d : InputTextDialog) (i : Int) (f : TextFilter)
    (hi : IsInt i) (h0 : 0 ≤ i) (hN : i < (d.myInput.length : Int)) :
    ∃ d1, InputTextDialog.setTextFilter f i d = some d1 ∧
      (d1.myInput[i.toNat]?).map EditTextWidget.filter = some (some f) ∧
      ∀ j : Int, InputTextDialog.getResult j d1 = InputTextDialog.getResult j d := by
  have hu : toUInt32 i = i.toNat := toUInt32_of_nonneg hi h0
  have hs : toSizeT i = i.toNat := toSizeT_of_nonneg hi h0
  have hlt : i.toNat < d.myInput.length := by omega
  refine ⟨{ d with myInput := d.myInput.set i.toNat ((d.myInput[i.toNat]).setTextFilter f) },
    ?_, ?_, ?_⟩
  · simp [InputTextDialog.setTextFilter, hu, hs, hlt]
  · simp [hlt, EditTextWidget.setTextFilter]
  · intro j
    simp only [InputTextDialog.getResult, List.length_set]
    split
    · by_cases hj : toSizeT j = i.toNat
      · rw [hj]
        simp [hlt, EditTextWidget.setTextFilter, EditTextWidget.getText]
      · rw [List.getElem?_set_ne (Ne.symm hj)]
    · rfl

theorem setTextFilter_in_range_witness :
    (IsInt 1 ∧ (0 : Int) ≤ 1 ∧ (1 : Int) < (nameEmailDialog.myInput.length : Int)) ∧
    ∃ d1, InputTextDialog.setTextFilter (fun ch => ch.isDigit) 1 nameEmailDialog = some d1 ∧
      (d1.myInput[(1 : Int).toNat]?).map EditTextWidget.filter
        = some (some (fun ch => ch.isDigit)) ∧
      ∀ j : Int, InputTextDialog.getResult j d1 = InputTextDialog.getResult j nameEmailDialog :=
  ⟨⟨by decide, by decide, by decide⟩,
   setTextFilter_in_range nameEmailDialog 1 (fun ch => ch.isDigit)
     (by decide) (by decide) (by decide)⟩

/-! ## Event dispatch -/

theorem CommandCodes.changed_ne (c : CommandCodes) :
    c.kChangedCmd ≠ c.kOKCmd ∧ c.kChangedCmd ≠ c.kAcceptCmd := by
  have h := c.caseLabelsDistinct
  simp only [List.nodup_cons, List.mem_cons, List.mem_singleton, not_or] at h
  refine ⟨?_, ?_⟩ <;> omega

theorem CommandCodes.cancel_ne (c : CommandCodes) :
    c.kCancelCmd ≠ c.kOKCmd ∧ c.kCancelCmd ≠ c.kAcceptCmd ∧ c.kCancelCmd ≠ c.kChangedCmd := by
  have h := c.caseLabelsDistinct
  simp only [List.nodup_cons, List.mem_cons, List.mem_singleton, not_or] at h
  refine ⟨?_, ?_, ?_⟩ <;> omega

/-- C4: for the OK command and the field accept command, with any data and
id, `handleCommand` makes exactly one outbound call `sendCommand(R, 0, 0)`
when a response command R is registered (`myCmd = R`, R nonzero), makes no
call when none is registered (`myCmd = 0`), and in both cases leaves the whole
dialog unchanged (open state, error flag, message and field texts). -/
theorem accept_emits_response (c : CommandCodes) (d : InputTextDialog) (sender : Sender)
    (cmd data id : Int) (hcmd : cmd = c.kOKCmd ∨ cmd = c.kAcceptCmd) :
    (∀ R : Int, R ≠ 0 → d.myCmd = R →
      (InputTextDialog.handleCommand c sender cmd data id d).2 = [Call.sendCommand R 0 0]) ∧
    (d.myCmd = 0 → (InputTextDialog.handleCommand c sender cmd data id d).2 = []) ∧
    (InputTextDialog.handleCommand c sender cmd data id d).1 = d := by
  refine ⟨?_, ?_, ?_⟩
  · intro R hR hd
    simp [InputTextDialog.handleCommand, hcmd, hd, hR]
  · intro hd
    simp [InputTextDialog.handleCommand, hcmd, hd]
  · unfold InputTextDialog.handleCommand
    rw [if_pos hcmd]
    split <;> rfl

theorem accept_emits_response_witness :
    ((3 : Int) = sampleCodes.kOKCmd ∨ (3 : Int) = sampleCodes.kAcceptCmd) ∧
    (InputTextDialog.handleCommand sampleCodes 0 3 7 9 { nameEmailDialog with myCmd := 42 }).2
      = [Call.sendCommand 42 0 0] ∧
    (InputTextDialog.handleCommand sampleCodes 0 3 7 9 { nameEmailDialog with myCmd := 42 }).1
      = { nameEmailDialog with myCmd := 42 } :=
  ⟨by decide,
   (accept_emits_response sampleCodes { nameEmailDialog with myCmd := 42 } 0 3 7 9
      (by decide)).1 42 (by decide) rfl,
   (accept_emits_response sampleCodes { nameEmailDialog with myCmd := 42 } 0 3 7 9
      (by decide)).2.2⟩

/-- C5: after `setMessage(X)` the error flag is true and the message text is X,
whatever the flag was before; a following field-changed command sets the
message text to the empty string and the flag to false; and a field-changed
command received while the flag is false leaves the dialog unchanged.  A
field-changed command makes no outbound call. -/
theorem setMessage_then_changed (c : CommandCodes) (d : InputTextDialog) (X : String)
    (sender : Sender) (data id : Int) :
    ((InputTextDialog.setMessage X d).myErrorFlag = true ∧
      (InputTextDialog.setMessage X d).myMessage.label = X) ∧
    ((InputTextDialog.handleCommand c sender c.kChangedCmd data id
        (InputTextDialog.setMessage X d)).1.myMessage.label = "" ∧
      (InputTextDialog.handleCommand c sender c.kChangedCmd data id
        (InputTextDialog.setMessage X d)).1.myErrorFlag = false) ∧
    (d.myErrorFlag = false →
      InputTextDialog.handleCommand c sender c.kChangedCmd data id d = (d, [])) := by
  have h := c.changed_ne
  refine ⟨⟨rfl, rfl⟩, ?_, ?_⟩
  · simp [InputTextDialog.handleCommand, InputTextDialog.setMessage, h.1, h.2,
      StaticTextWidget.setLabel]
  · intro hf
    simp [InputTextDialog.handleCommand, h.1, h.2, hf]

theorem setMessage_then_changed_witness :
    (InputTextDialog.handleCommand sampleCodes 0 sampleCodes.kChangedCmd 0 0
        (InputTextDialog.setMessage "X" nameEmailDialog)).1.myMessage.label = "" ∧
    (InputTextDialog.handleCommand sampleCodes 0 sampleCodes.kChangedCmd 0 0
        (InputTextDialog.setMessage "X" nameEmailDialog)).1.myErrorFlag = false ∧
    InputTextDialog.handleCommand sampleCodes 0 sampleCodes.kChangedCmd 0 0 nameEmailDialog
      = (nameEmailDialog, []) :=
  ⟨(setMessage_then_changed sampleCodes nameEmailDialog "X" 0 0 0).2.1.1,
   (setMessage_then_changed sampleCodes nameEmailDialog "X" 0 0 0).2.1.2,
   (setMessage_then_changed sampleCodes nameEmailDialog "X" 0 0 0).2.2 rfl⟩

/-- C6: the field cancel-edit command makes exactly one call, to the base
dialog handler, with the generic close command and the same sender, data and
id; a command other than OK, accept, changed and cancel-edit makes exactly one
call, to the base dialog handler, with that same command, sender, data and
id.  In both cases the dialog makes no `sendCommand` call and is itself left
unchanged (error flag and message included). -/
theorem cancel_and_other_forwarded (c : CommandCodes) (d : InputTextDialog) (sender : Sender)
    (cmd data id : Int) :
    InputTextDialog.handleCommand c sender c.kCancelCmd data id d
      = (d, [Call.dialogHandleCommand sender c.kCloseCmd data id]) ∧
    (cmd ≠ c.kOKCmd → cmd ≠ c.kAcceptCmd → cmd ≠ c.kChangedCmd → cmd ≠ c.kCancelCmd →
      InputTextDialog.handleCommand c sender cmd data id d
        = (d, [Call.dialogHandleCommand sender cmd data id])) := by
  have h := c.cancel_ne
  constructor
  · simp [InputTextDialog.handleCommand, h.1, h.2.1, h.2.2]
  · intro h1 h2 h3 h4
    simp [InputTextDialog.handleCommand, h1, h2, h3, h4]

theorem cancel_and_other_forwarded_witness :
    InputTextDialog.handleCommand sampleCodes 11 sampleCodes.kCancelCmd 7 9 nameEmailDialog
      = (nameEmailDialog, [Call.dialogHandleCommand 11 sampleCodes.kCloseCmd 7 9]) ∧
    InputTextDialog.handleCommand sampleCodes 11 77 7 9 nameEmailDialog
      = (nameEmailDialog, [Call.dialogHandleCommand 11 77 7 9]) :=
  ⟨(cancel_and_other_forwarded sampleCodes nameEmailDialog 11 77 7 9).1,
   (cancel_and_other_forwarded sampleCodes nameEmailDialog 11 77 7 9).2
     (by decide) (by decide) (by decide) (by decide)⟩

/-! ## Anchored show -/

/-- C7: anchored `show(x, y, rect)` on a closed dialog opens it only if the
scaled origin (rect.x + x*scale, rect.y + y*scale), computed in `uInt32`, is
contained in rect; when the scaled origin is not contained in rect the dialog
is not opened and stays closed. -/
theorem showAt_opens_only_inside (scale : Nat) (contains : Rect → Nat → Nat → Bool)
    (x y : Nat) (rect : Rect) (d : InputTextDialog) (hclosed : d.visible = false) :
    ((InputTextDialog.showAt scale contains x y rect d).visible = true →
      contains rect (scaledXOrig scale x rect) (scaledYOrig scale y rect) = true) ∧
    (contains rect (scaledXOrig scale x rect) (scaledYOrig scale y rect) = false →
      (InputTextDialog.showAt scale contains x y rect d).visible = false) := by
  unfold InputTextDialog.showAt
  cases hc : contains rect (scaledXOrig scale x rect) (scaledYOrig scale y rect) <;>
    simp [hc, hclosed, InputTextDialog.open]

theorem showAt_opens_only_inside_witness :
    nameEmailDialog.visible = false ∧
    Rect.contains sampleRect (scaledXOrig 2 300 sampleRect) (scaledYOrig 2 10 sampleRect) = false ∧
    (InputTextDialog.showAt 2 Rect.contains 300 10 sampleRect nameEmailDialog).visible = false :=
  ⟨rfl, by decide,
   (showAt_opens_only_inside 2 Rect.contains 300 10 sampleRect nameEmailDialog rfl).2
     (by decide)⟩

/-- C8, as stated, fails: with the reference rectangle (100,100)-(300,200),
scale 1 and x = y = 500 the scaled origin (600, 600) lies outside the
rectangle, yet the dialog after the call differs from the dialog before it
(its stored origin went from (0, 0) to (600, 600)). -/
theorem showAt_outside_changes_state :
    Rect.contains sampleRect (scaledXOrig 1 500 sampleRect) (scaledYOrig 1 500 sampleRect) = false ∧
    (InputTextDialog.showAt 1 Rect.contains 500 500 sampleRect nameEmailDialog).myXOrig = 600 ∧
    nameEmailDialog.myXOrig = 0 ∧
    InputTextDialog.showAt 1 Rect.contains 500 500 sampleRect nameEmailDialog ≠ nameEmailDialog := by
  refine ⟨by decide, by decide, rfl, ?_⟩
  intro h
  have h1 := congrArg InputTextDialog.myXOrig h
  revert h1
  decide

/-- C8, amended: when the scaled origin lies outside the reference rectangle,
anchored `show(x, y, rect)` stores the scaled origin in `myXOrig`/`myYOrig`
and changes nothing else: the position-mode flag `myEnableCenter`, the open
state, the error flag, the message and the fields are those before the call. -/
theorem showAt_outside_only_stores_origin (scale : Nat) (contains : Rect → Nat → Nat → Bool)
    (x y : Nat) (rect : Rect) (d : InputTextDialog)
    (hout : contains rect (scaledXOrig scale x rect) (scaledYOrig scale y rect) = false) :
    InputTextDialog.showAt scale contains x y rect d
      = { d with myXOrig := scaledXOrig scale x rect, myYOrig := scaledYOrig scale y rect } ∧
    (InputTextDialog.showAt scale contains x y rect d).myEnableCenter = d.myEnableCenter ∧
    (InputTextDialog.showAt scale contains x y rect d).visible = d.visible ∧
    (InputTextDialog.showAt scale contains x y rect d).myErrorFlag = d.myErrorFlag ∧
    (InputTextDialog.showAt scale contains x y rect d).myMessage = d.myMessage ∧
    (InputTextDialog.showAt scale contains x y rect d).myInput = d.myInput := by
  have h : InputTextDialog.showAt scale contains x y rect d
      = { d with myXOrig := scaledXOrig scale x rect, myYOrig := scaledYOrig scale y rect } := by
    simp [InputTextDialog.showAt, hout]
  rw [h]
  exact ⟨rfl, rfl, rfl, rfl, rfl, rfl⟩

theorem showAt_outside_only_stores_origin_witness :
    Rect.contains sampleRect (scaledXOrig 1 500 sampleRect) (scaledYOrig 1 500 sampleRect) = false ∧
    InputTextDialog.showAt 1 Rect.contains 500 500 sampleRect nameEmailDialog
      = { nameEmailDialog with myXOrig := 600, myYOrig := 600 } :=
  ⟨by decide,
   (showAt_outside_only_stores_origin 1 Rect.contains 500 500 sampleRect nameEmailDialog
     (by decide)).1⟩

/-- When the scaled origin is contained in the reference rectangle, anchored
`show(x, y, rect)` stores the scaled origin, selects anchored positioning
(`myEnableCenter = false`) and opens the dialog; nothing else changes. -/
theorem showAt_inside_opens (scale : Nat) (contains : Rect → Nat → Nat → Bool)
    (x y : Nat) (rect : Rect) (d : InputTextDialog)
    (hin : contains rect (scaledXOrig scale x rect) (scaledYOrig scale y rect) = true) :
    InputTextDialog.showAt scale contains x y rect d
      = { d with myXOrig := scaledXOrig scale x rect, myYOrig := scaledYOrig scale y rect,
                 myEnableCenter := false, visible := true } := by
  simp [InputTextDialog.showAt, hin, InputTextDialog.open]

theorem showAt_inside_opens_witness :
    Rect.contains sampleRect (scaledXOrig 2 10 sampleRect) (scaledYOrig 2 20 sampleRect) = true ∧
    InputTextDialog.showAt 2 Rect.contains 10 20 sampleRect nameEmailDialog
      = { nameEmailDialog with myXOrig := 120, myYOrig := 140,
                               myEnableCenter := false, visible := true } :=
  ⟨by decide,
   showAt_inside_opens 2 Rect.contains 10 20 sampleRect nameEmailDialog (by decide)⟩

/-- Centered `show()` selects centered positioning (`myEnableCenter = true`)
and opens the dialog; the stored origin and everything else are unchanged. -/
theorem show_centered_opens (d : InputTextDialog) :
    InputTextDialog.show d = { d with myEnableCenter := true, visible := true } := by
  rfl

/-! ## Layout -/

/-- C1 fails on the code for the empty label list: with no label the
longest-label loop leaves `maxIdx = 0`, the lookup `labels[maxIdx]` of line 77
is outside the (empty) label vector, and `initialize` does not complete. -/
theorem initialize_empty_labels (lfont nfont : Font) (th : Int) :
    maxIdx [] = 0 ∧ ([] : List String)[maxIdx []]? = none ∧
    labelColumnWidth lfont [] = none ∧
    InputTextDialog.initialize lfont nfont [] th = none := by
  refine ⟨rfl, rfl, rfl, rfl⟩

/-- For a non-empty label list `initialize` completes, and it constructs as
many static labels and as many text fields as there are labels; field i is
the one created on the row of label i, empty, `i` rows below the first, with
the static label that carries label i two pixels lower (positions computed in
`uInt32`, and equal to the plain sums when these fit an `int`). -/
theorem initialize_nonempty_fields (lfont nfont : Font) (labels : List String) (th : Int)
    (hne : labels ≠ []) :
    ∃ d, InputTextDialog.initialize lfont nfont labels th = some d ∧
      d.myInput.length = labels.length ∧ d.labelWidgets.length = labels.length ∧
      ∀ (i : Nat) (label : String), labels[i]? = some label →
        ∃ t e, d.labelWidgets[i]? = some t ∧ d.myInput[i]? = some e ∧
          t.label = label ∧ e.text = "" ∧
          e.y = uInt32ToInt (toUInt32
            (VBORDER lfont + th + (i : Int) * (lfont.getLineHeight + VGAP lfont))) ∧
          t.y = uInt32ToInt (toUInt32
            (VBORDER lfont + th + (i : Int) * (lfont.getLineHeight + VGAP lfont) + 2)) ∧
          (0 ≤ VBORDER lfont + th + (i : Int) * (lfont.getLineHeight + VGAP lfont) →
            VBORDER lfont + th + (i : Int) * (lfont.getLineHeight + VGAP lfont) + 2 < 2 ^ 31 →
            e.y = VBORDER lfont + th + (i : Int) * (lfont.getLineHeight + VGAP lfont) ∧
            t.y = e.y + 2) := by
  have hlt := maxIdx_lt labels hne
  have hw : labelColumnWidth lfont labels
      = some (toUInt32 (lfont.getStringWidth (labels[maxIdx labels]))) := by
    simp [labelColumnWidth, List.getElem?_eq_getElem hlt]
  refine ⟨layoutDialog lfont nfont labels th
      (toUInt32 (lfont.getStringWidth (labels[maxIdx labels]))),
    by simp only [ InputTextDialog.initialize, hw, Option.map_some'], ?_, ?_, ?_⟩
  · exact createRows_inputs_length _ _ _ _ _
  · exact createRows_labels_length _ _ _ _ _
  · intro i label hi
    have hrow := createRows_row lfont (dialogWidth lfont)
      (toUInt32 (lfont.getStringWidth (labels[maxIdx labels]))) labels
      (toUInt32 (VBORDER lfont + th)) i label hi
    have hy : toUInt32 ((toUInt32 (VBORDER lfont + th) : Int)
          + (i : Int) * (lfont.getLineHeight + VGAP lfont))
        = toUInt32 (VBORDER lfont + th + (i : Int) * (lfont.getLineHeight + VGAP lfont)) :=
      toUInt32_add_left _ _
    have hy2 : toUInt32 ((toUInt32 (VBORDER lfont + th) : Int)
          + (i : Int) * (lfont.getLineHeight + VGAP lfont) + 2)
        = toUInt32 (VBORDER lfont + th + (i : Int) * (lfont.getLineHeight + VGAP lfont) + 2) := by
      rw [Int.add_assoc, toUInt32_add_left]
      congr 1
      ring
    rw [hy, hy2] at hrow
    refine ⟨_, _, hrow.1, hrow.2, rfl, rfl, rfl, rfl, ?_⟩
    intro h0 h1
    have he : uInt32ToInt (toUInt32
          (VBORDER lfont + th + (i : Int) * (lfont.getLineHeight + VGAP lfont)))
        = VBORDER lfont + th + (i : Int) * (lfont.getLineHeight + VGAP lfont) :=
      uInt32ToInt_toUInt32 (by unfold IsInt; omega)
    have ht : uInt32ToInt (toUInt32
          (VBORDER lfont + th + (i : Int) * (lfont.getLineHeight + VGAP lfont) + 2))
        = VBORDER lfont + th + (i : Int) * (lfont.getLineHeight + VGAP lfont) + 2 :=
      uInt32ToInt_toUInt32 (by unfold IsInt; omega)
    exact ⟨he, by rw [ht, he]⟩

theorem initialize_nonempty_fields_witness :
    (["Name", "Email"] : List String) ≠ [] ∧
    ∃ d, InputTextDialog.initialize sampleFont sampleFont ["Name", "Email"] 14 = some d ∧
      d.myInput.length = 2 ∧ d.labelWidgets.length = 2 ∧
      ∀ (i : Nat) (label : String), (["Name", "Email"] : List String)[i]? = some label →
        ∃ t e, d.labelWidgets[i]? = some t ∧ d.myInput[i]? = some e ∧
          t.label = label ∧ e.text = "" ∧
          e.y = uInt32ToInt (toUInt32
            (VBORDER sampleFont + 14
              + (i : Int) * (sampleFont.getLineHeight + VGAP sampleFont))) ∧
          t.y = uInt32ToInt (toUInt32
            (VBORDER sampleFont + 14
              + (i : Int) * (sampleFont.getLineHeight + VGAP sampleFont) + 2)) ∧
          (0 ≤ VBORDER sampleFont + 14
              + (i : Int) * (sampleFont.getLineHeight + VGAP sampleFont) →
            VBORDER sampleFont + 14
              + (i : Int) * (sampleFont.getLineHeight + VGAP sampleFont) + 2 < 2 ^ 31 →
            e.y = VBORDER sampleFont + 14
              + (i : Int) * (sampleFont.getLineHeight + VGAP sampleFont) ∧
            t.y = e.y + 2) :=
  ⟨by decide, initialize_nonempty_fields sampleFont sampleFont ["Name", "Email"] 14 (by decide)⟩

/-- C9: for every non-empty label list (labels shorter than 2^32 bytes) and
every font whose `getStringWidth` returns an `int` on the labels, the label at
`maxIdx` is the one at the smallest index among those of maximal length
(`std::string::length()`, counted in `char`s); the label column width `lwidth`
computed by `initialize` is the `getStringWidth` of that label stored in a
`uInt32`, hence that width itself when it is not negative; it is the width
every static label is created with; and if every label is the empty string it
is the width of the empty string, which is zero for a font that gives the
empty string no width. -/
theorem label_column_width_first_longest (lfont : Font) (labels : List String)
    (hne : labels ≠ []) (hlen : ∀ l ∈ labels, strLength l < 2 ^ 32)
    (hint : ∀ l ∈ labels, IsInt (lfont.getStringWidth l)) :
    ∃ (k : Nat) (s : String), labels[k]? = some s ∧ maxIdx labels = k ∧
      (∀ l ∈ labels, strLength l ≤ strLength s) ∧
      (∀ (j : Nat) (t : String), j < k → labels[j]? = some t → strLength t < strLength s) ∧
      labelColumnWidth lfont labels = some (toUInt32 (lfont.getStringWidth s)) ∧
      (0 ≤ lfont.getStringWidth s →
        (labelColumnWidth lfont labels).map Int.ofNat = some (lfont.getStringWidth s)) ∧
      (∀ nfont th, ∃ d, InputTextDialog.initialize lfont nfont labels th = some d ∧
        ∀ t ∈ d.labelWidgets, t.w = lfont.getStringWidth s) ∧
      ((∀ l ∈ labels, l = "") →
        labelColumnWidth lfont labels = some (toUInt32 (lfont.getStringWidth "")) ∧
        (lfont.getStringWidth "" = 0 → labelColumnWidth lfont labels = some 0)) := by
  have hlt := maxIdx_lt labels hne
  have hidx : ∃ (k : Nat) (s : String), labels[k]? = some s ∧ maxIdx labels = k ∧
      (∀ l ∈ labels, strLength l ≤ strLength s) ∧
      (∀ (j : Nat) (t : String), j < k → labels[j]? = some t → strLength t < strLength s) := by
    rcases longestLabelLoop_spec labels hlen 0 0 0 with ⟨heq, hle⟩ | ⟨k, s, hk, heq, _, hle, hfirst⟩
    · refine ⟨0, labels[0], List.getElem?_eq_getElem _, ?_, ?_, ?_⟩
      · simp [maxIdx, heq]
      · intro l hl
        have := hle l hl
        omega
      · intro j t hj
        omega
    · refine ⟨k, s, hk, ?_, hle, hfirst⟩
      simp [maxIdx, heq]
  rcases hidx with ⟨k, s, hk, hmax, hle, hfirst⟩
  have hsmem : s ∈ labels := List.getElem?_mem hk
  have hsint : IsInt (lfont.getStringWidth s) := hint s hsmem
  have hw : labelColumnWidth lfont labels = some (toUInt32 (lfont.getStringWidth s)) := by
    simp [labelColumnWidth, hmax, hk]
  refine ⟨k, s, hk, hmax, hle, hfirst, hw, ?_, ?_, ?_⟩
  · intro h0
    rw [hw, Option.map_some', toUInt32_of_nonneg hsint h0]
    exact congrArg some (Int.toNat_of_nonneg h0)
  · intro nfont th
    refine ⟨layoutDialog lfont nfont labels th (toUInt32 (lfont.getStringWidth s)),
      by simp only [ InputTextDialog.initialize, hw, Option.map_some'], ?_⟩
    intro t ht
    change t ∈ (createRows lfont (dialogWidth lfont) (toUInt32 (lfont.getStringWidth s)) labels
      (toUInt32 (VBORDER lfont + th))).1 at ht
    rcases List.getElem?_of_mem ht with ⟨i, hi⟩
    have hil : i < labels.length := by
      have h1 := (List.getElem?_eq_some.mp hi).1
      rwa [createRows_labels_length] at h1
    have hrow := (createRows_row lfont (dialogWidth lfont) (toUInt32 (lfont.getStringWidth s))
      labels (toUInt32 (VBORDER lfont + th)) i labels[i] (List.getElem?_eq_getElem hil)).1
    rw [hrow] at hi
    injection hi with hi
    rw [← hi]
    exact uInt32ToInt_toUInt32 hsint
  · intro hall
    have hs : s = "" := hall s hsmem
    rw [hs] at hw
    refine ⟨hw, ?_⟩
    intro h0
    rw [hw, h0]
    rfl

theorem label_column_width_first_longest_witness :
    ((["Name", "Émile", "Phone", "Emails"] : List String) ≠ [] ∧
      (∀ l ∈ (["Name", "Émile", "Phone", "Emails"] : List String), strLength l < 2 ^ 32) ∧
      (∀ l ∈ (["Name", "Émile", "Phone", "Emails"] : List String),
        IsInt (sampleFont.getStringWidth l))) ∧
    (∃ (k : Nat) (s : String),
      (["Name", "Émile", "Phone", "Emails"] : List String)[k]? = some s ∧
      maxIdx ["Name", "Émile", "Phone", "Emails"] = k ∧
      (∀ l ∈ (["Name", "Émile", "Phone", "Emails"] : List String), strLength l ≤ strLength s) ∧
      (∀ (j : Nat) (t : String), j < k →
        (["Name", "Émile", "Phone", "Emails"] : List String)[j]? = some t →
        strLength t < strLength s) ∧
      labelColumnWidth sampleFont ["Name", "Émile", "Phone", "Emails"]
        = some (toUInt32 (sampleFont.getStringWidth s)) ∧
      (0 ≤ sampleFont.getStringWidth s →
        (labelColumnWidth sampleFont ["Name", "Émile", "Phone", "Emails"]).map Int.ofNat
          = some (sampleFont.getStringWidth s)) ∧
      (∀ nfont th, ∃ d, InputTextDialog.initialize sampleFont nfont
          ["Name", "Émile", "Phone", "Emails"] th = some d ∧
        ∀ t ∈ d.labelWidgets, t.w = sampleFont.getStringWidth s) ∧
      ((∀ l ∈ (["Name", "Émile", "Phone", "Emails"] : List String), l = "") →
        labelColumnWidth sampleFont ["Name", "Émile", "Phone", "Emails"]
          = some (toUInt32 (sampleFont.getStringWidth "")) ∧
        (sampleFont.getStringWidth "" = 0 →
          labelColumnWidth sampleFont ["Name", "Émile", "Phone", "Emails"] = some 0))) ∧
    (strLength "Émile" = 6 ∧ strLength "Emails" = 6 ∧
      maxIdx ["Name", "Émile", "Phone", "Emails"] = 1 ∧
      labelColumnWidth sampleFont ["Name", "Émile", "Phone", "Emails"] = some 40 ∧
      maxIdx ["ééé", "abcd"] = 0) :=
  ⟨⟨by decide, by decide, by decide⟩,
   label_column_width_first_longest sampleFont ["Name", "Émile", "Phone", "Emails"]
     (by decide) (by decide) (by decide),
   by decide, by decide, by decide, by decide, by decide⟩

/-- C10: for non-negative font metrics, any title-bar height th and any label
list of length N (N = 0 included), the width assigned to `_w` is
2*HBORDER + 39*fontWidth with HBORDER = floor(5*fontWidth/4), whatever the
labels, and the height assigned to `_h` is
buttonHeight + lineHeight + VGAP + N*(lineHeight + VGAP) + th + 2*VBORDER with
buttonHeight = floor(5*lineHeight/4), VGAP = floor(fontHeight/4) and
VBORDER = floor(fontHeight/2); these are the `_w` and `_h` of the dialog that
`initialize` returns. -/
theorem dialog_dimensions (lfont : Font) (th : Int) (labels : List String)
    (hl : 0 ≤ lfont.getLineHeight) (hw : 0 ≤ lfont.getMaxCharWidth)
    (hh : 0 ≤ lfont.getFontHeight) :
    (HBORDER lfont = 5 * lfont.getMaxCharWidth / 4 ∧
      buttonHeight lfont = 5 * lfont.getLineHeight / 4 ∧
      VGAP lfont = lfont.getFontHeight / 4 ∧
      VBORDER lfont = lfont.getFontHeight / 2) ∧
    dialogWidth lfont = 2 * (5 * lfont.getMaxCharWidth / 4) + 39 * lfont.getMaxCharWidth ∧
    dialogHeight lfont th labels
      = 5 * lfont.getLineHeight / 4 + lfont.getLineHeight + lfont.getFontHeight / 4
        + (labels.length : Int) * (lfont.getLineHeight + lfont.getFontHeight / 4)
        + th + 2 * (lfont.getFontHeight / 2) ∧
    dialogHeight lfont th []
      = 5 * lfont.getLineHeight / 4 + lfont.getLineHeight + lfont.getFontHeight / 4
        + th + 2 * (lfont.getFontHeight / 2) ∧
    (∀ nfont d, InputTextDialog.initialize lfont nfont labels th = some d →
      d._w = dialogWidth lfont ∧ d._h = dialogHeight lfont th labels) := by
  have h1 : HBORDER lfont = 5 * lfont.getMaxCharWidth / 4 := by
    unfold HBORDER mulOneAndQuarter
    rw [Int.tdiv_eq_ediv (by omega) (by omega), Int.mul_comm]
  have h2 : buttonHeight lfont = 5 * lfont.getLineHeight / 4 := by
    unfold buttonHeight mulOneAndQuarter
    rw [Int.tdiv_eq_ediv (by omega) (by omega), Int.mul_comm]
  have h3 : VGAP lfont = lfont.getFontHeight / 4 := by
    unfold VGAP
    rw [Int.tdiv_eq_ediv hh (by omega)]
  have h4 : VBORDER lfont = lfont.getFontHeight / 2 := by
    unfold VBORDER
    rw [Int.tdiv_eq_ediv hh (by omega)]
  refine ⟨⟨h1, h2, h3, h4⟩, ?_, ?_, ?_, ?_⟩
  · unfold dialogWidth
    rw [h1]
    ring
  · unfold dialogHeight
    rw [h2, h3, h4]
    ring
  · unfold dialogHeight
    rw [h2, h3, h4]
    simp
    ring
  · intro nfont d hd
    unfold InputTextDialog.initialize at hd
    rcases Option.map_eq_some'.mp hd with ⟨lwidth, _, hd⟩
    rw [← hd]
    exact ⟨rfl, rfl⟩

theorem dialog_dimensions_witness :
    ((0 : Int) ≤ sampleFont.getLineHeight ∧ (0 : Int) ≤ sampleFont.getMaxCharWidth ∧
      (0 : Int) ≤ sampleFont.getFontHeight) ∧
    dialogWidth sampleFont = 2 * (5 * sampleFont.getMaxCharWidth / 4)
      + 39 * sampleFont.getMaxCharWidth ∧
    dialogWidth sampleFont = 332 ∧
    dialogHeight sampleFont 14 ["Name", "Email"] = 86 ∧
    dialogHeight sampleFont 14 [] = 56 :=
  ⟨⟨by decide, by decide, by decide⟩,
   (dialog_dimensions sampleFont 14 ["Name", "Email"] (by decide) (by decide) (by decide)).2.1,
   by decide, by decide, by decide⟩

end Stella
